import Mathlib

/-!
# Session lifecycle manager: shallow embedding and verification

This file embeds the session/context lifecycle manager of the janitor skill
(session monitor, importance analyzer, pruner, archiver, emergency cleanup,
background watcher, configuration manager) as executable Lean definitions and
proves or refutes the specification claims about it.

Conventions of the embedding:
* JavaScript `number` arithmetic is modelled over `ℚ` (for fractional
  quantities such as ages in hours, utilization percentages and heuristic
  scores) and over `ℕ`/`ℤ` where the code only ever holds integers
  (character counts, file sizes, epoch milliseconds).
* `Date` values are epoch milliseconds (`ℤ`); the current time is an explicit
  `now` parameter wherever the code calls `Date.now()`.
* `Array.prototype.sort` (a stable sort in JavaScript) is modelled by
  `List.mergeSort`, which is likewise stable.
* `Math.ceil` on a nonnegative quotient is `Int.ceil` over `ℚ`, or the
  equivalent `(n + d - 1) / d` form on `ℕ` where noted.
* Filesystem effects are modelled by explicit data: a live session directory
  is a list of `(name, content)` pairs, and the archive/delete behaviour of
  the cleanup paths is recorded as an event trace (`FsEvent`).
-/

/-- JavaScript `text.includes(pattern)` on character lists: `true` iff
`pat` occurs as a contiguous subsequence of the text. -/
def containsSeq (pat : List Char) : List Char → Bool
  | [] => decide (pat = [])
  | c :: cs => pat.isPrefixOf (c :: cs) || containsSeq pat cs

/-- `s.includes(pat)` on strings. -/
def strIncludes (s pat : String) : Bool := containsSeq pat.data s.data

/-- `s.toLowerCase().includes(pat)`: lower-case the text characterwise
before the substring test (the patterns used by the analyzer are already
lower case). -/
def lowerIncludes (s pat : String) : Bool :=
  containsSeq pat.data (s.data.map Char.toLower)

/-- Derived priority tag of a session (`SessionMonitor._calculatePriority`). -/
inductive SessionPriority where
  | high
  | medium
  | low
deriving DecidableEq, Repr

/-- A session record as produced by `SessionMonitor.getContextUsage` and
consumed by the pruner, the emergency cleanup and the watcher.  `lastActive`
is epoch milliseconds.  The `path` field of the JS object is determined by
`sessionId` and is not repeated here. -/
structure SessionInfo where
  sessionId : String
  tokenCount : ℕ
  messageCount : ℕ
  lastActive : ℤ
  priority : SessionPriority
deriving DecidableEq, Repr

/-- Age of a session in milliseconds: `Date.now() - session.lastActive.getTime()`. -/
def ageMs (now : ℤ) (s : SessionInfo) : ℤ := now - s.lastActive

/-- Age of a session in hours: `ageMs / (1000 * 60 * 60)`. -/
def ageHours (now : ℤ) (s : SessionInfo) : ℚ := (ageMs now s : ℚ) / (1000 * 60 * 60)

namespace SessionMonitor

/-- The `content` field of a message as far as token counting is concerned:
either a string payload, or structured (non-string) content of which only the
`JSON.stringify(...).length` matters to the code. -/
inductive MessageContent where
  | str (s : String)
  | structured (stringifyLen : ℕ)
deriving DecidableEq, Repr

/-- One entry of `session.messages` as read by
`SessionMonitor.countSessionTokens`.  `toolCallsLen`/`toolResultsLen` are
`JSON.stringify(message.tool_calls).length` resp.
`JSON.stringify(message.tool_results).length` when those fields are present
(`none` when absent). -/
structure MonitorMessage where
  content : Option MessageContent
  toolCallsLen : Option ℕ
  toolResultsLen : Option ℕ
deriving DecidableEq, Repr

/-- A session file as seen by `countSessionTokens`: either it JSON-parses to
a message list, or it does not and only its raw byte size is available. -/
inductive SessionFileContent where
  | parsed (messages : List MonitorMessage)
  | unparsable (fileSize : ℕ)
deriving DecidableEq, Repr

/-- Character contribution of one message inside the `for` loop of
`countSessionTokens`.  `if (message.content)` skips a falsy (empty-string)
payload; `typeof content === 'string'` selects `.length` versus
`JSON.stringify(...).length`; the tool-call / tool-result stringify lengths
are added when those fields are present. -/
def messageChars (m : MonitorMessage) : ℕ :=
  (match m.content with
    | some (.str s) => if s = "" then 0 else s.length
    | some (.structured n) => n
    | none => 0)
  + (match m.toolCallsLen with | some n => n | none => 0)
  + (match m.toolResultsLen with | some n => n | none => 0)

/-- The accumulating loop `for (const message of session.messages) totalChars += ...`. -/
def totalCharsLoop : List MonitorMessage → ℕ → ℕ
  | [], acc => acc
  | m :: rest, acc => totalCharsLoop rest (acc + messageChars m)

/-- `SessionMonitor.countSessionTokens`: `Math.ceil(totalChars / 4)` on a
parsed session, `Math.ceil(stats.size / 4)` on an unparsable one.
`Math.ceil (x / 4)` on a natural `x` is `(x + 3) / 4` in `ℕ`. -/
def countSessionTokens : SessionFileContent → ℕ
  | .parsed messages => (totalCharsLoop messages 0 + 3) / 4
  | .unparsable size => (size + 3) / 4

/-- `SessionMonitor._calculatePriority`: `high` if age < 24h and more than 10
messages, `medium` if age < 168h or more than 5 messages, else `low`. -/
def calculatePriority (messages : ℕ) (lastModified now : ℤ) : SessionPriority :=
  let ageH : ℚ := ((now - lastModified : ℤ) : ℚ) / (1000 * 60 * 60)
  if ageH < 24 ∧ messages > 10 then .high
  else if ageH < 168 ∨ messages > 5 then .medium
  else .low

/-- The claim's cost formula for one message: the character length of the
content payload plus the embedded tool-call and tool-result payload lengths,
as a plain (unconditional) sum. -/
def claimPayloadChars (m : MonitorMessage) : ℕ :=
  (match m.content with
    | some (.str s) => s.length
    | some (.structured n) => n
    | none => 0)
  + m.toolCallsLen.getD 0 + m.toolResultsLen.getD 0

end SessionMonitor

namespace SessionPruner

/-- `SessionPruner` configuration (constructor defaults in `pruner.js`).
`maxSessionAge` is in days, `keepRecentHours` in hours. -/
structure Config where
  maxSessionAge : ℚ
  maxContextTokens : ℕ
  keepRecentHours : ℚ
  keepMinimumSessions : ℕ
  minMessagesForImportant : ℕ
  preservePinned : Bool
  preserveHighEngagement : Bool
deriving DecidableEq, Repr

/-- The constructor defaults: 7 days, 160000 tokens, 24 h, 5 sessions,
10 messages, both preservation flags on. -/
def defaultConfig : Config :=
  { maxSessionAge := 7
    maxContextTokens := 160000
    keepRecentHours := 24
    keepMinimumSessions := 5
    minMessagesForImportant := 10
    preservePinned := true
    preserveHighEngagement := true }

/-- `SessionPruner._isProtected`: recent sessions (age in hours under
`keepRecentHours`) are protected, and so are high-engagement sessions
(`messageCount >= minMessagesForImportant`) when `preserveHighEngagement`
is set. -/
def isProtected (cfg : Config) (now : ℤ) (s : SessionInfo) : Bool :=
  if ageHours now s < cfg.keepRecentHours then true
  else if cfg.preserveHighEngagement = true ∧ cfg.minMessagesForImportant ≤ s.messageCount then true
  else false

/-- `SessionPruner._conservativePrune`: keep exactly the sessions whose age in
milliseconds exceeds `maxSessionAge * 24 * 60 * 60 * 1000`. -/
def conservativePrune (cfg : Config) (now : ℤ) (sessions : List SessionInfo) : List SessionInfo :=
  sessions.filter fun s => decide ((ageMs now s : ℚ) > cfg.maxSessionAge * (24 * 60 * 60 * 1000))

/-- `SessionPruner._calculatePruneScore` (higher = more important to keep):
40% recency (100 minus age in hours, floored at 0), 30% message count
(5 points per message, capped at 100), 20% token count (scaled per 10000,
capped at 100), plus a flat +50/+25 for high/medium priority. -/
def calculatePruneScore (now : ℤ) (s : SessionInfo) : ℚ :=
  let recencyScore : ℚ := max 0 (100 - ageHours now s)
  let messageScore : ℚ := min 100 ((s.messageCount : ℚ) * 5)
  let tokenScore : ℚ := min 100 ((s.tokenCount : ℚ) / 10000 * 100)
  recencyScore * (4/10) + messageScore * (3/10) + tokenScore * (2/10)
    + (if s.priority = .high then 50 else 0)
    + (if s.priority = .medium then 25 else 0)

/-- `SessionPruner._sortByPruneScore`: stable ascending sort by prune score
(lowest score first, i.e. pruned first). -/
def sortByPruneScore (now : ℤ) (sessions : List SessionInfo) : List SessionInfo :=
  sessions.mergeSort fun a b => decide (calculatePruneScore now a ≤ calculatePruneScore now b)

/-- `SessionPruner._moderatePrune`: everything older than `maxSessionAge`,
plus — only when utilization exceeds 80 — the lowest-scoring
`Math.ceil(n * 0.25)` sessions, skipping ids already selected. -/
def moderatePrune (cfg : Config) (now : ℤ) (sessions : List SessionInfo)
    (utilizationPercent : ℚ) : List SessionInfo :=
  let oldSessions := conservativePrune cfg now sessions
  if utilizationPercent > 80 then
    let sortedByScore := sortByPruneScore now sessions
    let pruneCount := (⌈(sortedByScore.length : ℚ) * (25/100)⌉).toNat
    (sortedByScore.take pruneCount).foldl
      (fun targets c =>
        if targets.any fun t => t.sessionId = c.sessionId then targets else targets ++ [c])
      oldSessions
  else oldSessions

/-- `SessionPruner._aggressivePrune`: evict the lowest-scoring
`Math.ceil(n * prunePercent)` sessions, where the percent is 70% above 95
utilization, else 50% above 90, else 35% above 80, else 25%.  The JS
`for (let i = 0; i < pruneCount; i++) targets.push(sortedByScore[i])`
is the `pruneCount`-prefix of the sorted list. -/
def aggressivePrune (now : ℤ) (sessions : List SessionInfo)
    (utilizationPercent : ℚ) : List SessionInfo :=
  let sortedByScore := sortByPruneScore now sessions
  let prunePercent : ℚ :=
    if utilizationPercent > 95 then 70/100
    else if utilizationPercent > 90 then 50/100
    else if utilizationPercent > 80 then 35/100
    else 25/100
  let pruneCount := (⌈(sortedByScore.length : ℚ) * prunePercent⌉).toNat
  sortedByScore.take pruneCount

/-- `SessionPruner._emergencyPrune`: keep exactly the sessions whose age in
milliseconds exceeds `keepRecentHours * 60 * 60 * 1000`. -/
def emergencyPrune (cfg : Config) (now : ℤ) (sessions : List SessionInfo) : List SessionInfo :=
  sessions.filter fun s => decide ((ageMs now s : ℚ) > cfg.keepRecentHours * (60 * 60 * 1000))

/-- `SessionPruner._selectPruneTargets`: drop protected sessions, then
dispatch on the strategy name (unknown strategies fall back to `moderate`,
like the `default` case of the JS `switch`). -/
def selectPruneTargets (cfg : Config) (now : ℤ) (sessions : List SessionInfo)
    (strategy : String) (utilizationPercent : ℚ) : List SessionInfo :=
  let prunableSessions := sessions.filter fun s => ! isProtected cfg now s
  if prunableSessions.length = 0 then []
  else if strategy = "conservative" then conservativePrune cfg now prunableSessions
  else if strategy = "moderate" then moderatePrune cfg now prunableSessions utilizationPercent
  else if strategy = "aggressive" then aggressivePrune now prunableSessions utilizationPercent
  else if strategy = "emergency" then emergencyPrune cfg now prunableSessions
  else moderatePrune cfg now prunableSessions utilizationPercent

/-- The sessions still on disk after `prune` ran (every selected target is
unlinked; `prune` performs no other filesystem change). -/
def pruneSurvivors (cfg : Config) (now : ℤ) (sessions : List SessionInfo)
    (strategy : String) (utilizationPercent : ℚ) : List SessionInfo :=
  sessions.filter fun s =>
    ! decide (s ∈ selectPruneTargets cfg now sessions strategy utilizationPercent)

end SessionPruner

/-- A filesystem-effect event of the cleanup pipeline: a successful archive
bundle write covering the listed session ids, or the deletion of one live
session file. -/
inductive FsEvent where
  | archiveWrite (ids : List String)
  | deleteLive (id : String)
deriving DecidableEq, Repr

/-- The archive-then-delete invariant as a trace check: walking the event
list, every deleted id must already be covered by an earlier successful
archive write (`archived` accumulates the covered ids). -/
def deletionsCovered : List FsEvent → List String → Bool
  | [], _ => true
  | .archiveWrite ids :: rest, archived => deletionsCovered rest (archived ++ ids)
  | .deleteLive id :: rest, archived => archived.contains id && deletionsCovered rest archived

namespace SessionPruner

/-- The filesystem events of `SessionPruner.prune`: it unlinks every selected
target (`fs.promises.unlink(session.path)`) and performs no archive write of
any kind. -/
def pruneEvents (cfg : Config) (now : ℤ) (sessions : List SessionInfo)
    (strategy : String) (utilizationPercent : ℚ) : List FsEvent :=
  (selectPruneTargets cfg now sessions strategy utilizationPercent).map
    fun s => FsEvent.deleteLive s.sessionId

/-- `SessionPruner.getRecommendedStrategy`. -/
def getRecommendedStrategy (utilizationPercent : ℚ) : String :=
  if utilizationPercent ≥ 95 then "emergency"
  else if utilizationPercent ≥ 85 then "aggressive"
  else if utilizationPercent ≥ 75 then "moderate"
  else "conservative"

end SessionPruner

namespace ContextWatcher

/-- `ContextWatcher._isProtected`: age under 24 h, at least 10 messages, or
`high` priority.  (Note this differs from `SessionPruner._isProtected`.) -/
def watcherIsProtected (now : ℤ) (s : SessionInfo) : Bool :=
  if ageHours now s < 24 then true
  else if 10 ≤ s.messageCount then true
  else if s.priority = .high then true
  else false

/-- The archive set of `ContextWatcher._triggerRoutineCleanup`: unprotected
sessions (by the watcher's own rule), stably sorted oldest first, cut to
`Math.ceil(n * f)` with `f` = 0.5 above 90 utilization, 0.35 above 85,
else 0.25. -/
def routineArchiveSet (now : ℤ) (sessions : List SessionInfo)
    (utilizationPercent : ℚ) : List SessionInfo :=
  let sessionsToPrune :=
    (sessions.filter fun s => ! watcherIsProtected now s).mergeSort
      fun a b => decide (a.lastActive ≤ b.lastActive)
  let pruneCount :=
    if utilizationPercent > 90 then (⌈(sessionsToPrune.length : ℚ) * (50/100)⌉).toNat
    else if utilizationPercent > 85 then (⌈(sessionsToPrune.length : ℚ) * (35/100)⌉).toNat
    else (⌈(sessionsToPrune.length : ℚ) * (25/100)⌉).toNat
  sessionsToPrune.take pruneCount

/-- Filesystem events of `ContextWatcher._triggerRoutineCleanup`: if the
watcher's own selection is empty it returns early (no events); otherwise it
archives that selection and then calls `pruner.prune(strategy)`, which
deletes the *pruner's* selection. -/
def routineCleanupEvents (pcfg : SessionPruner.Config) (now : ℤ)
    (sessions : List SessionInfo) (utilizationPercent : ℚ) : List FsEvent :=
  let strategy := SessionPruner.getRecommendedStrategy utilizationPercent
  let toPrune := routineArchiveSet now sessions utilizationPercent
  if toPrune.length = 0 then []
  else
    FsEvent.archiveWrite (toPrune.map (·.sessionId))
      :: SessionPruner.pruneEvents pcfg now sessions strategy utilizationPercent

/-- Start time (ms after `start()`) of the `k`-th scan while the watcher
runs: `start()` fires `_performCheck()` immediately and then
`setInterval(() => this._performCheck(), intervalMs)`, and never awaits the
in-flight check, so tick `k` begins at wall-clock time `k * intervalMs`
regardless of how long any scan takes. -/
def watcherTickStart (intervalMs k : ℕ) : ℕ := k * intervalMs

end ContextWatcher

namespace EmergencyCleanup

/-- `EmergencyCleanup` configuration (constructor defaults in
`emergency.js`): keep the last 6 hours, keep at most 3 sessions, threshold
95. -/
structure Config where
  keepRecentHours : ℚ
  keepMinimumSessions : ℕ
  emergencyThreshold : ℚ
deriving DecidableEq, Repr

/-- Constructor defaults of `EmergencyCleanup`. -/
def defaultConfig : Config :=
  { keepRecentHours := 6, keepMinimumSessions := 3, emergencyThreshold := 95 }

/-- Step 2 of `EmergencyCleanup.execute`: the sessions to keep are those with
age under `keepRecentHours * 60 * 60 * 1000` ms, stably sorted most recent
first, then cut with `.slice(0, keepMinimumSessions)`. -/
def sessionsToKeep (cfg : Config) (now : ℤ) (sessions : List SessionInfo) : List SessionInfo :=
  ((sessions.filter fun s => decide ((ageMs now s : ℚ) < cfg.keepRecentHours * (60 * 60 * 1000))).mergeSort
      fun a b => decide (b.lastActive ≤ a.lastActive)).take
    cfg.keepMinimumSessions

/-- Step 3 of `execute`: every session whose id is not among the keep set is
unlinked; these survive. -/
def executeSurvivors (cfg : Config) (now : ℤ) (sessions : List SessionInfo) : List SessionInfo :=
  sessions.filter fun s => (sessionsToKeep cfg now sessions).any fun k => k.sessionId = s.sessionId

/-- The sessions deleted by Step 3 of `execute`. -/
def executeDeleted (cfg : Config) (now : ℤ) (sessions : List SessionInfo) : List SessionInfo :=
  sessions.filter fun s => ! (sessionsToKeep cfg now sessions).any fun k => k.sessionId = s.sessionId

/-- Filesystem events of `EmergencyCleanup.execute`: archive all current
sessions, then delete everything outside the keep set. -/
def executeEvents (cfg : Config) (now : ℤ) (sessions : List SessionInfo) : List FsEvent :=
  FsEvent.archiveWrite (sessions.map (·.sessionId))
    :: (executeDeleted cfg now sessions).map fun s => FsEvent.deleteLive s.sessionId

end EmergencyCleanup

namespace SessionArchiver

/-- The report object returned by `SessionArchiver.restore`. -/
structure RestoreReport where
  restored : ℕ
  skipped : ℕ
deriving DecidableEq, Repr

/-- The copy-back loop of `SessionArchiver.restore`: for each extracted
session file, if no file of that name exists in the live directory
(`fs.existsSync(destPath)`), copy it there and count it; otherwise leave the
live directory untouched.  A directory is a list of `(name, content)` pairs;
a copy appends.  Returns the final directory and `restoredCount`. -/
def restoreCopy : List (String × String) → List (String × String) →
    List (String × String) × ℕ
  | [], live => (live, 0)
  | f :: rest, live =>
    if f.1 ∈ live.map Prod.fst then restoreCopy rest live
    else
      let r := restoreCopy rest (live ++ [f])
      (r.1, r.2 + 1)

/-- `SessionArchiver.restore`: run the copy-back loop over the extracted
bundle and report `restored = restoredCount`,
`skipped = sessions.length - restoredCount`. -/
def restoreResult (bundle live : List (String × String)) :
    List (String × String) × RestoreReport :=
  let r := restoreCopy bundle live
  (r.1, { restored := r.2, skipped := bundle.length - r.2 })

/-- Reading one file of a directory by name (first entry wins, as on a real
filesystem where names are unique). -/
def lookupFile (name : String) (files : List (String × String)) : Option String :=
  (files.find? fun f => f.1 = name).map Prod.snd

end SessionArchiver

namespace ConfigManager

/-- The `sessionManagement.monitoring` section of the janitor configuration,
the part `ConfigManager.validate` checks. -/
structure MonitoringConfig where
  alertThreshold : ℚ
  emergencyThreshold : ℚ
  intervalMinutes : ℚ
deriving DecidableEq, Repr

/-- The monitoring defaults of `_getDefaultConfig`: alert 80, emergency 95,
interval 5 minutes. -/
def defaultMonitoringConfig : MonitoringConfig :=
  { alertThreshold := 80, emergencyThreshold := 95, intervalMinutes := 5 }

/-- The `ConfigManager` constructor via `_loadConfig`: a missing or
unparsable stored file (`none`) yields the defaults, and any parsed stored
configuration is adopted as is.  No validation runs and construction cannot
fail. -/
def loadConfig (stored : Option MonitoringConfig) : MonitoringConfig :=
  match stored with
  | some c => c
  | none => defaultMonitoringConfig

/-- The record returned by `ConfigManager.validate`. -/
structure ValidationResult where
  valid : Bool
  errors : List String
deriving DecidableEq, Repr

/-- `ConfigManager.validate`: collect the error strings in push order and
report `valid` iff none accumulated. -/
def validate (c : MonitoringConfig) : ValidationResult :=
  let errors : List String :=
    (if c.alertThreshold < 0 ∨ c.alertThreshold > 100 then
      ["alertThreshold must be between 0 and 100"] else [])
    ++ (if c.emergencyThreshold < 0 ∨ c.emergencyThreshold > 100 then
      ["emergencyThreshold must be between 0 and 100"] else [])
    ++ (if c.emergencyThreshold ≤ c.alertThreshold then
      ["emergencyThreshold must be greater than alertThreshold"] else [])
    ++ (if c.intervalMinutes ≤ 0 then
      ["intervalMinutes must be positive"] else [])
  { valid := decide (errors.length = 0), errors := errors }

end ConfigManager

namespace SessionAnalyzer

/-- Analyzer configuration (constructor defaults in `analyzer.js`): the four
configurable factor weights and the engagement floor. -/
structure Config where
  minMessagesForImportant : ℕ
  toolUsageWeight : ℚ
  conversationDepthWeight : ℚ
  recencyWeight : ℚ
  engagementWeight : ℚ
deriving DecidableEq, Repr

/-- Analyzer constructor defaults: 10 messages, weights 0.3 / 0.25 / 0.25 / 0.2. -/
def defaultConfig : Config :=
  { minMessagesForImportant := 10
    toolUsageWeight := 3/10
    conversationDepthWeight := 25/100
    recencyWeight := 25/100
    engagementWeight := 2/10 }

/-- One entry of a message's `tool_calls` array; `functionName` is
`call.function?.name` (`none` when the optional chain is undefined). -/
structure ToolCallRec where
  functionName : Option String
deriving DecidableEq, Repr

/-- One entry of a message's `tool_results` array: the truthiness of its
`is_error` and `error` fields. -/
structure ToolResultRec where
  is_error : Bool
  error : Bool
deriving DecidableEq, Repr

/-- One entry of `sessionData.messages`.  `content` is the effective text the
analyzer works on: the string content itself, or `JSON.stringify` of
non-string content (every factor function makes exactly that conversion
before use). -/
structure AnalyzerMessage where
  role : String
  content : String
  tool_calls : Option (List ToolCallRec)
  tool_results : Option (List ToolResultRec)
deriving DecidableEq, Repr

/-- A parsed session file as loaded by `_loadSessionData`. -/
structure SessionData where
  messages : List AnalyzerMessage
deriving DecidableEq, Repr

/-- `_calculateRecencyScore`: step function of the age in hours. -/
def recencyScore (now lastActive : ℤ) : ℚ :=
  let ageH : ℚ := ((now - lastActive : ℤ) : ℚ) / (1000 * 60 * 60)
  if ageH < 1 then 100
  else if ageH < 6 then 90
  else if ageH < 24 then 80
  else if ageH < 72 then 60
  else if ageH < 168 then 40
  else if ageH < 336 then 20
  else 10

/-- `_calculateEngagementScore`. -/
def engagementScore (d : SessionData) : ℚ :=
  if d.messages.length = 0 then 0
  else
    let messageCount := d.messages.length
    let score : ℚ := min 100 ((messageCount : ℚ) * 5)
    let score := if messageCount > 20 then score + 10 else score
    let score := if messageCount > 50 then score + 10 else score
    let userMessages := (d.messages.filter fun m => m.role = "user").length
    let assistantMessages := (d.messages.filter fun m => m.role = "assistant").length
    let score := if userMessages > 5 ∧ assistantMessages > 5 then score + 15 else score
    min 100 score

/-- `_countToolCalls`: total number of `tool_calls` entries. -/
def countToolCalls (d : SessionData) : ℕ :=
  (d.messages.map fun m => match m.tool_calls with | some cs => cs.length | none => 0).sum

/-- The distinct tool names used in a session (the `uniqueTools` set of
`_calculateToolUsageScore` / `_calculateUniquenessScore`): names are added
only when `call.function?.name` is truthy, and set size is the number of
distinct names. -/
def uniqueToolNames (d : SessionData) : List String :=
  ((d.messages.map fun m =>
      match m.tool_calls with
      | some cs => (cs.filterMap (·.functionName)).filter fun n => n ≠ ""
      | none => []).flatten).eraseDups

/-- `_calculateToolUsageScore`. -/
def toolUsageScore (d : SessionData) : ℚ :=
  let toolCallCount := countToolCalls d
  let score : ℚ := 0
  let score := if toolCallCount > 0 then score + 30 else score
  let score := if toolCallCount > 5 then score + 20 else score
  let score := if toolCallCount > 10 then score + 20 else score
  let score := score + (uniqueToolNames d).length * 5
  min 100 score

/-- `_calculateConversationDepth`. -/
def conversationDepth (d : SessionData) : ℚ :=
  if d.messages.length = 0 then 0
  else
    let turns := d.messages.length / 2
    let depth : ℚ := min 50 ((turns : ℚ) * 5)
    let longMessages := (d.messages.filter fun m => m.content.length > 1000).length
    let depth := depth + min 30 ((longMessages : ℚ) * 10)
    let codeBlocks := (d.messages.filter fun m => strIncludes m.content "```").length
    let depth := depth + min 20 ((codeBlocks : ℚ) * 5)
    min 100 depth

/-- `_calculateAvgMessageLength`. -/
def avgMessageLength (d : SessionData) : ℚ :=
  if d.messages.length = 0 then 0
  else ((d.messages.map fun m => m.content.length).sum : ℚ) / d.messages.length

/-- `_calculateComplexityScore`. -/
def complexityScore (d : SessionData) : ℚ :=
  if d.messages.length = 0 then 0
  else
    let hasCode := d.messages.any fun m =>
      strIncludes m.content "```" || strIncludes m.content "function" || strIncludes m.content "class"
    let complexity : ℚ := if hasCode then 30 else 0
    let complexity := complexity + min 30 ((countToolCalls d : ℚ) * 3)
    let avgLength := avgMessageLength d
    let complexity := if avgLength > 500 then complexity + 20 else complexity
    let complexity := if avgLength > 1000 then complexity + 10 else complexity
    let hasErrors := d.messages.any fun m =>
      lowerIncludes m.content "error" || lowerIncludes m.content "debug" || lowerIncludes m.content "fix"
    let complexity := if hasErrors then complexity + 10 else complexity
    min 100 complexity

/-- Error contribution of one message in `_calculateErrorRate`: one count if
the lower-cased text mentions `error:` / `failed` / `exception`, plus one
count for every tool result whose `is_error` or `error` field is truthy.
A single message can therefore contribute more than one count. -/
def messageErrorCount (m : AnalyzerMessage) : ℕ :=
  (if lowerIncludes m.content "error:" || lowerIncludes m.content "failed"
      || lowerIncludes m.content "exception" then 1 else 0)
  + (match m.tool_results with
    | some results => (results.filter fun r => r.is_error || r.error).length
    | none => 0)

/-- `_calculateErrorRate`: total error count divided by the number of
messages (0 for an empty session).  Not bounded by 1. -/
def errorRate (d : SessionData) : ℚ :=
  if d.messages.length = 0 then 0
  else ((d.messages.map messageErrorCount).sum : ℚ) / d.messages.length

/-- `_calculateUniquenessScore`. -/
def uniquenessScore (d : SessionData) : ℚ :=
  min 100 (50 + min 30 (((uniqueToolNames d).length : ℚ) * 5))

/-- The factor record assembled by `analyzeSession`. -/
structure Factors where
  recency : ℚ
  engagement : ℚ
  toolUsage : ℚ
  conversationDepth : ℚ
  complexity : ℚ
  errorRate : ℚ
  uniqueness : ℚ
deriving DecidableEq, Repr

/-- `_calculateImportanceScore`: weighted sum of the factors (complexity and
uniqueness have fixed weights 0.15 and 0.1), multiplied by the error-rate
penalty `1 - errorRate * 0.5`, then clamped with
`Math.min(100, Math.max(0, score))`. -/
def calculateImportanceScore (cfg : Config) (f : Factors) : ℚ :=
  let score : ℚ :=
    f.recency * cfg.recencyWeight + f.engagement * cfg.engagementWeight
      + f.toolUsage * cfg.toolUsageWeight
      + f.conversationDepth * cfg.conversationDepthWeight
      + f.complexity * (15/100) + f.uniqueness * (1/10)
  let score := score * (1 - f.errorRate * (5/10))
  min 100 (max 0 score)

/-- The factors `analyzeSession` computes for a parseable session. -/
def analyzeFactors (now lastActive : ℤ) (d : SessionData) : Factors :=
  { recency := recencyScore now lastActive
    engagement := engagementScore d
    toolUsage := toolUsageScore d
    conversationDepth := conversationDepth d
    complexity := complexityScore d
    errorRate := errorRate d
    uniqueness := uniquenessScore d }

/-- The importance score `analyzeSession` assigns to a parseable session. -/
def analyzeScore (cfg : Config) (now lastActive : ℤ) (d : SessionData) : ℚ :=
  calculateImportanceScore cfg (analyzeFactors now lastActive d)

end SessionAnalyzer

/-! ## Concrete inputs used by the verdict theorems -/

/-- A stale, unprotected session: 10 days old (at `now = 864000000`), no
messages, low priority. -/
def staleSession : SessionInfo :=
  { sessionId := "stale", tokenCount := 1000, messageCount := 0,
    lastActive := 0, priority := .low }

/-- Three sessions that are all about 10 hours old at `now = 36000000` —
older than the emergency keep-recent window of 6 hours. -/
def emergencyAllOldSessions : List SessionInfo :=
  [ { sessionId := "s1", tokenCount := 40000, messageCount := 2,
      lastActive := 0, priority := .low },
    { sessionId := "s2", tokenCount := 50000, messageCount := 3,
      lastActive := 1000000, priority := .low },
    { sessionId := "s3", tokenCount := 60000, messageCount := 4,
      lastActive := 2000000, priority := .low } ]

/-- Four eligible (already unprotected) sessions handed to the aggressive
strategy, all old enough that every prune score is 0. -/
def aggressiveFourSessions : List SessionInfo :=
  [ { sessionId := "a", tokenCount := 0, messageCount := 0,
      lastActive := 0, priority := .low },
    { sessionId := "b", tokenCount := 0, messageCount := 0,
      lastActive := 0, priority := .low },
    { sessionId := "c", tokenCount := 0, messageCount := 0,
      lastActive := 0, priority := .low },
    { sessionId := "d", tokenCount := 0, messageCount := 0,
      lastActive := 0, priority := .low } ]

/-- The eviction fraction exactly as the claim words it: bands 25% at >80,
35% at >90, 50% at >90 and 70% at >95, overlaps resolved by taking the
highest applicable fraction; no band applies at or under 80. -/
def claimAggressiveFraction (utilizationPercent : ℚ) : ℚ :=
  if utilizationPercent > 95 then 70/100
  else if utilizationPercent > 90 then 50/100
  else if utilizationPercent > 80 then 25/100
  else 0

/-- A protected session: 15 messages, 1 hour old at `now = 3600000`. -/
def engagedRecentSession : SessionInfo :=
  { sessionId := "busy", tokenCount := 5000, messageCount := 15,
    lastActive := 0, priority := .high }

/-- A stored janitor configuration whose emergency threshold does not exceed
its alert threshold. -/
def badMonitoringConfig : ConfigManager.MonitoringConfig :=
  { alertThreshold := 80, emergencyThreshold := 80, intervalMinutes := 5 }

/-- A one-message session whose single message mentions a failure in its text
and carries two failed tool results, so its error count is 3 while it has
only 1 message. -/
def tripleErrorSession : SessionAnalyzer.SessionData :=
  { messages :=
      [ { role := "assistant", content := "the command failed",
          tool_calls := none,
          tool_results := some [ { is_error := true, error := false },
                                 { is_error := false, error := true } ] } ] }

/-! ## Helper lemmas -/

theorem totalCharsLoop_eq_sum (messages : List SessionMonitor.MonitorMessage) (acc : ℕ) :
    SessionMonitor.totalCharsLoop messages acc
      = acc + (messages.map SessionMonitor.messageChars).sum := by
  induction messages generalizing acc with
  | nil => simp [SessionMonitor.totalCharsLoop]
  | cons m rest ih =>
    simp only [SessionMonitor.totalCharsLoop, ih, List.map_cons, List.sum_cons]
    ring

theorem messageChars_eq_claimPayloadChars (m : SessionMonitor.MonitorMessage) :
    SessionMonitor.messageChars m = SessionMonitor.claimPayloadChars m := by
  rcases m with ⟨c, tc, tr⟩
  rcases tc with _ | a <;> rcases tr with _ | b <;> rcases c with _ | (s | n) <;>
    first
    | rfl
    | by_cases hs : s = "" <;>
        simp [SessionMonitor.messageChars, SessionMonitor.claimPayloadChars, hs]

theorem nat_div_four_eq_ceil (x : ℕ) : ((x + 3) / 4 : ℕ) = (⌈(x : ℚ) / 4⌉).toNat := by
  have h1 : ((x + 3) / 4 : ℕ) * 4 ≤ x + 3 := Nat.div_mul_le_self _ _
  have h2 : x + 3 < ((x + 3) / 4 : ℕ) * 4 + 4 := Nat.lt_div_mul_add (by norm_num)
  have hx : x ≤ ((x + 3) / 4 : ℕ) * 4 := by omega
  have hr : ((x : ℚ)) / 4 * 4 = (x : ℚ) := by field_simp
  have h : (⌈(x : ℚ) / 4⌉) = (((x + 3) / 4 : ℕ) : ℤ) := by
    rw [Int.ceil_eq_iff]
    constructor
    · have hc : (((x + 3) / 4 : ℕ) : ℚ) * 4 ≤ (x : ℚ) + 3 := by exact_mod_cast h1
      simp only [Int.cast_natCast]
      linarith
    · have hc : (x : ℚ) ≤ (((x + 3) / 4 : ℕ) : ℚ) * 4 := by exact_mod_cast hx
      simp only [Int.cast_natCast]
      linarith
  rw [h, Int.toNat_natCast]

theorem ceil_mul_frac_toNat_le (n : ℕ) (p : ℚ) (h1 : p ≤ 1) :
    (⌈(n : ℚ) * p⌉).toNat ≤ n := by
  have hle : (n : ℚ) * p ≤ n := by nlinarith [Nat.cast_nonneg (α := ℚ) n]
  have h2 : ⌈(n : ℚ) * p⌉ ≤ (n : ℤ) := Int.ceil_le.mpr (by exact_mod_cast hle)
  omega

theorem mem_dedupPush {xs init : List SessionInfo} {t : SessionInfo}
    (h : t ∈ xs.foldl
      (fun targets c =>
        if targets.any fun x => x.sessionId = c.sessionId then targets else targets ++ [c])
      init) :
    t ∈ init ∨ t ∈ xs := by
  induction xs generalizing init with
  | nil => exact .inl h
  | cons x rest ih =>
    simp only [List.foldl_cons] at h
    rcases ih h with h' | h'
    · by_cases hc : (init.any fun a => a.sessionId = x.sessionId) = true
      · rw [if_pos hc] at h'
        exact .inl h'
      · rw [if_neg hc] at h'
        rcases List.mem_append.1 h' with h'' | h''
        · exact .inl h''
        · exact .inr (List.mem_cons.2 (.inl (List.mem_singleton.1 h'')))
    · exact .inr (List.mem_cons.2 (.inr h'))

theorem mem_sortByPruneScore {now : ℤ} {l : List SessionInfo} {t : SessionInfo}
    (h : t ∈ SessionPruner.sortByPruneScore now l) : t ∈ l :=
  List.mem_mergeSort.1 h

theorem mem_moderatePrune {cfg : SessionPruner.Config} {now : ℤ} {l : List SessionInfo}
    {u : ℚ} {t : SessionInfo} (h : t ∈ SessionPruner.moderatePrune cfg now l u) : t ∈ l := by
  unfold SessionPruner.moderatePrune at h
  by_cases hu : u > 80
  · rw [if_pos hu] at h
    rcases mem_dedupPush h with h' | h'
    · exact (List.mem_filter.1 h').1
    · exact mem_sortByPruneScore (List.take_subset _ _ h')
  · rw [if_neg hu] at h
    exact (List.mem_filter.1 h).1

theorem mem_aggressivePrune {now : ℤ} {l : List SessionInfo} {u : ℚ} {t : SessionInfo}
    (h : t ∈ SessionPruner.aggressivePrune now l u) : t ∈ l := by
  unfold SessionPruner.aggressivePrune at h
  exact mem_sortByPruneScore (List.take_subset _ _ h)

theorem mem_selectPruneTargets {cfg : SessionPruner.Config} {now : ℤ}
    {sessions : List SessionInfo} {strategy : String} {u : ℚ} {t : SessionInfo}
    (h : t ∈ SessionPruner.selectPruneTargets cfg now sessions strategy u) :
    t ∈ sessions.filter fun s => ! SessionPruner.isProtected cfg now s := by
  unfold SessionPruner.selectPruneTargets at h
  dsimp only at h
  repeat' split at h
  all_goals
    first
    | exact absurd h (List.not_mem_nil _)
    | exact (List.mem_filter.1 h).1
    | exact mem_moderatePrune h
    | exact mem_aggressivePrune h

/-! ## Claim verdict theorems -/

/-- **C4** (confirmed).  A protected session — one whose age is under the
keep-recent floor, or whose message count meets the high-engagement floor
(with `preserveHighEngagement` set, its default) — is never selected for
eviction by `_selectPruneTargets`, whatever the strategy string and the
utilization: protection is filtered out before any strategy runs.  In
particular a session with 15 messages and age 1 hour is never selected
(see the witness). -/
theorem protected_sessions_never_selected
    (cfg : SessionPruner.Config) (now : ℤ) (sessions : List SessionInfo)
    (strategy : String) (utilizationPercent : ℚ) (s : SessionInfo)
    (hprot : SessionPruner.isProtected cfg now s = true) :
    s ∉ SessionPruner.selectPruneTargets cfg now sessions strategy utilizationPercent := by
  intro hmem
  have h := (List.mem_filter.1 (mem_selectPruneTargets hmem)).2
  rw [hprot] at h
  exact absurd h (by decide)

/-- Witness for **C4**: the concrete session with 15 messages and age 1 hour
is protected under the default pruner configuration and is not selected by
the aggressive strategy at 99% utilization. -/
theorem protected_sessions_never_selected_witness :
    SessionPruner.isProtected SessionPruner.defaultConfig 3600000 engagedRecentSession = true
    ∧ engagedRecentSession ∉ SessionPruner.selectPruneTargets SessionPruner.defaultConfig
        3600000 [engagedRecentSession, staleSession] "aggressive" 99 := by
  have hprot : SessionPruner.isProtected SessionPruner.defaultConfig 3600000
      engagedRecentSession = true := by
    unfold SessionPruner.isProtected
    rw [if_pos]
    norm_num [ageHours, ageMs, SessionPruner.defaultConfig, engagedRecentSession]
  exact ⟨hprot, protected_sessions_never_selected _ _ _ _ _ _ hprot⟩

/-- **C8** (confirmed).  For a session file that parses, the monitor's
estimated cost is the ceiling of (the summed character lengths of all
message content payloads plus embedded tool-call and tool-result payloads)
divided by 4; for a file that does not parse it is the ceiling of the raw
file size divided by 4. -/
theorem countSessionTokens_matches_claim :
    ∀ (messages : List SessionMonitor.MonitorMessage) (size : ℕ),
      SessionMonitor.countSessionTokens (.parsed messages)
        = (⌈(((messages.map SessionMonitor.claimPayloadChars).sum : ℕ) : ℚ) / 4⌉).toNat
      ∧ SessionMonitor.countSessionTokens (.unparsable size)
        = (⌈((size : ℕ) : ℚ) / 4⌉).toNat := by
  intro messages size
  constructor
  · have hfun : SessionMonitor.messageChars = SessionMonitor.claimPayloadChars :=
      funext messageChars_eq_claimPayloadChars
    show (SessionMonitor.totalCharsLoop messages 0 + 3) / 4 = _
    rw [totalCharsLoop_eq_sum, Nat.zero_add, hfun, nat_div_four_eq_ceil]
  · exact nat_div_four_eq_ceil size

/-- **C7** counterexample.  The claim says the next tick is scheduled only
after the in-flight scan completed.  With the default 5-minute interval
(300000 ms) and a scan that takes 400000 ms, the `setInterval`-driven tick 1
starts before the scan that started at tick 0 is done. -/
theorem watcher_tick_overlap_counterexample :
    ¬ (ContextWatcher.watcherTickStart 300000 0 + 400000
        ≤ ContextWatcher.watcherTickStart 300000 1) := by
  decide

/-- **C7** amended.  The watcher fires `_performCheck` through `setInterval`
at fixed wall-clock multiples of the poll interval and never awaits the
in-flight scan, so the next tick starts at or after the in-flight scan's
completion exactly when that scan's duration is at most the interval; longer
scans overlap the next tick. -/
theorem watcher_tick_overlap_iff :
    ∀ (intervalMs : ℕ) (dur : ℕ → ℕ) (k : ℕ),
      (ContextWatcher.watcherTickStart intervalMs k + dur k
          ≤ ContextWatcher.watcherTickStart intervalMs (k + 1))
        ↔ dur k ≤ intervalMs := by
  intro i dur k
  unfold ContextWatcher.watcherTickStart
  rw [Nat.succ_mul]
  omega

/-- **C6** counterexample.  Constructing the configuration manager over a
stored configuration whose emergency threshold does not exceed its alert
threshold succeeds and adopts the configuration unchanged — `_loadConfig`
performs no validation and cannot fail — rather than being rejected with an
error as the claim states. -/
theorem config_construction_accepts_equal_thresholds :
    ConfigManager.loadConfig (some badMonitoringConfig) = badMonitoringConfig
    ∧ ¬ badMonitoringConfig.alertThreshold < badMonitoringConfig.emergencyThreshold := by
  refine ⟨rfl, ?_⟩
  norm_num [badMonitoringConfig]

/-- **C6** amended.  Construction accepts any stored configuration without
checks; it is the separate `ConfigManager.validate()` method that reports a
configuration whose emergency threshold does not exceed the alert threshold
as invalid, returning `valid = false` together with the error string
`emergencyThreshold must be greater than alertThreshold` (it does not
throw). -/
theorem validate_reports_threshold_violation (c : ConfigManager.MonitoringConfig)
    (h : c.emergencyThreshold ≤ c.alertThreshold) :
    (ConfigManager.validate c).valid = false
    ∧ "emergencyThreshold must be greater than alertThreshold"
        ∈ (ConfigManager.validate c).errors := by
  unfold ConfigManager.validate
  rw [if_pos h]
  constructor
  · split_ifs <;> simp
  · split_ifs <;> simp

/-- Witness for the amended **C6** theorem at the concrete bad
configuration (alert 80, emergency 80). -/
theorem validate_reports_threshold_violation_witness :
    badMonitoringConfig.emergencyThreshold ≤ badMonitoringConfig.alertThreshold
    ∧ (ConfigManager.validate badMonitoringConfig).valid = false
    ∧ "emergencyThreshold must be greater than alertThreshold"
        ∈ (ConfigManager.validate badMonitoringConfig).errors := by
  have h : badMonitoringConfig.emergencyThreshold ≤ badMonitoringConfig.alertThreshold := by
    norm_num [badMonitoringConfig]
  exact ⟨h, validate_reports_threshold_violation badMonitoringConfig h⟩

/-- **C10** (confirmed).  The analyzer's importance score of any parseable
session lies in `[0, 100]` for every weight configuration: the final clamp
`Math.min(100, Math.max(0, score))` guarantees it.   The clamp really is
load-bearing: the error rate is not bounded by 1 — the concrete
one-message session `tripleErrorSession` (text mentioning a failure plus two
failed tool results) has error rate 3, making the penalty multiplier
`1 - errorRate * 0.5` negative. -/
theorem importance_score_clamped :
    (∀ (cfg : SessionAnalyzer.Config) (now lastActive : ℤ)
        (d : SessionAnalyzer.SessionData),
      0 ≤ SessionAnalyzer.analyzeScore cfg now lastActive d
      ∧ SessionAnalyzer.analyzeScore cfg now lastActive d ≤ 100)
    ∧ SessionAnalyzer.errorRate tripleErrorSession = 3
    ∧ 1 - SessionAnalyzer.errorRate tripleErrorSession * (5/10) < 0 := by
  have herr : SessionAnalyzer.errorRate tripleErrorSession = 3 := by
    have hcount : (tripleErrorSession.messages.map SessionAnalyzer.messageErrorCount).sum = 3 := by
      decide
    have hlen : tripleErrorSession.messages.length = 1 := rfl
    unfold SessionAnalyzer.errorRate
    rw [if_neg (by simp [hlen]), hcount, hlen]
    norm_num
  refine ⟨?_, herr, by rw [herr]; norm_num⟩
  intro cfg now lastActive d
  unfold SessionAnalyzer.analyzeScore SessionAnalyzer.calculateImportanceScore
  exact ⟨le_min (by norm_num) (le_max_left _ _), min_le_left _ _⟩

/-- **C2** failing input.  With the default emergency configuration
(keep-recent 6 h, `keepMinimumSessions = 3`) and three sessions that are all
about 10 hours old, `execute()` keeps nothing: the keep set is the recent
sessions cut to *at most* `keepMinimumSessions` — there is no fallback to
the N most recent when fewer than N sessions are recent — so every session
is deleted and 0 < 3 sessions survive, contradicting the claimed floor. -/
theorem emergency_deletes_all_when_none_recent :
    (EmergencyCleanup.executeSurvivors EmergencyCleanup.defaultConfig 36000000
        emergencyAllOldSessions).length = 0
    ∧ emergencyAllOldSessions.length = 3
    ∧ EmergencyCleanup.defaultConfig.keepMinimumSessions = 3 := by
  refine ⟨?_, rfl, rfl⟩
  have hfilter : emergencyAllOldSessions.filter
      (fun s => decide ((ageMs 36000000 s : ℚ)
        < EmergencyCleanup.defaultConfig.keepRecentHours * (60 * 60 * 1000))) = [] := by
    rw [List.filter_eq_nil_iff]
    intro s hs
    fin_cases hs <;>
      norm_num [ageMs, EmergencyCleanup.defaultConfig]
  have hkeep : EmergencyCleanup.sessionsToKeep EmergencyCleanup.defaultConfig 36000000
      emergencyAllOldSessions = [] := by
    unfold EmergencyCleanup.sessionsToKeep
    rw [hfilter, List.mergeSort_nil, List.take_nil]
  unfold EmergencyCleanup.executeSurvivors
  rw [hkeep]
  simp

/-- **C1** failing input.  Calling `SessionPruner.prune('conservative')`
directly on a store holding one unprotected 10-day-old session unlinks that
session's live file without any archive write at all: the pruner contains no
archiver call, so the resulting event trace violates the archive-before-
delete check. -/
theorem prune_deletes_without_archive :
    SessionPruner.pruneEvents SessionPruner.defaultConfig 864000000 [staleSession]
        "conservative" 50
      = [FsEvent.deleteLive "stale"]
    ∧ deletionsCovered [FsEvent.deleteLive "stale"] [] = false := by
  refine ⟨?_, rfl⟩
  have hprot : SessionPruner.isProtected SessionPruner.defaultConfig 864000000
      staleSession = false := by
    unfold SessionPruner.isProtected
    rw [if_neg, if_neg]
    · norm_num [SessionPruner.defaultConfig, staleSession]
    · norm_num [ageHours, ageMs, SessionPruner.defaultConfig, staleSession]
  have hfilter : ([staleSession].filter fun s =>
      ! SessionPruner.isProtected SessionPruner.defaultConfig 864000000 s)
      = [staleSession] := by
    simp [List.filter, hprot]
  have hage : (decide ((ageMs 864000000 staleSession : ℚ)
      > SessionPruner.defaultConfig.maxSessionAge * (24 * 60 * 60 * 1000))) = true := by
    rw [decide_eq_true_eq]
    norm_num [ageMs, SessionPruner.defaultConfig, staleSession]
  have hcons : SessionPruner.conservativePrune SessionPruner.defaultConfig 864000000
      [staleSession] = [staleSession] := by
    unfold SessionPruner.conservativePrune
    simp only [List.filter, hage]
  have htargets : SessionPruner.selectPruneTargets SessionPruner.defaultConfig 864000000
      [staleSession] "conservative" 50 = [staleSession] := by
    unfold SessionPruner.selectPruneTargets
    dsimp only
    rw [hfilter, if_neg (by norm_num), if_pos rfl, hcons]
  unfold SessionPruner.pruneEvents
  rw [htargets]
  rfl

theorem length_sortByPruneScore (now : ℤ) (l : List SessionInfo) :
    (SessionPruner.sortByPruneScore now l).length = l.length :=
  List.length_mergeSort _

/-- **C3** counterexample.  The claim's band table (25% at >80, 35% at >90,
50% at >90, 70% at >95, highest applicable band winning) predicts an
eviction count of `⌈4 * 25%⌉ = 1` for four eligible sessions at 85%
utilization, but `_aggressivePrune` evicts `⌈4 * 35%⌉ = 2` there: the code's
bands are 35% above 80 and 50% above 90 (and 25% at or below 80, where the
claim's table has no applicable band at all). -/
theorem aggressive_band_counterexample :
    (SessionPruner.aggressivePrune 864000000 aggressiveFourSessions 85).length
      ≠ (⌈(aggressiveFourSessions.length : ℚ) * claimAggressiveFraction 85⌉).toNat := by
  have hfrac : claimAggressiveFraction 85 = 25/100 := by
    unfold claimAggressiveFraction
    rw [if_neg (by norm_num), if_neg (by norm_num), if_pos (by norm_num)]
  have hlen : (SessionPruner.sortByPruneScore 864000000 aggressiveFourSessions).length = 4 :=
    (length_sortByPruneScore _ _).trans rfl
  have hceil2 : (⌈((4 : ℕ) : ℚ) * (35/100)⌉).toNat = 2 := by
    have h : (⌈((4 : ℕ) : ℚ) * (35/100)⌉) = 2 := by
      rw [Int.ceil_eq_iff]
      norm_num
    rw [h]
    rfl
  have hceil1 : (⌈((4 : ℕ) : ℚ) * (25/100)⌉).toNat = 1 := by
    have h : (⌈((4 : ℕ) : ℚ) * (25/100)⌉) = 1 := by
      rw [Int.ceil_eq_iff]
      norm_num
    rw [h]
    rfl
  have hlhs : (SessionPruner.aggressivePrune 864000000 aggressiveFourSessions 85).length = 2 := by
    unfold SessionPruner.aggressivePrune
    dsimp only
    rw [if_neg (by norm_num : ¬ (85:ℚ) > 95), if_neg (by norm_num : ¬ (85:ℚ) > 90),
      if_pos (by norm_num : (85:ℚ) > 80), List.length_take, hlen, hceil2]
    rfl
  rw [hlhs, hfrac, show aggressiveFourSessions.length = 4 from rfl, hceil1]
  decide

/-- **C3** amended.  `_aggressivePrune` evicts the lowest-ranked
`⌈n * f⌉` of the `n` eligible sessions, where the fraction `f` is 70% when
utilization > 95, else 50% when > 90, else 35% when > 80, and 25% otherwise
(the highest matching band takes precedence through the if-chain); the
eviction count is exactly that ceiling and every evicted session comes from
the eligible list. -/
theorem aggressive_eviction_fraction (now : ℤ) (sessions : List SessionInfo) (u : ℚ) :
    SessionPruner.aggressivePrune now sessions u
      = (SessionPruner.sortByPruneScore now sessions).take
          ((⌈(sessions.length : ℚ)
            * (if u > 95 then 70/100 else if u > 90 then 50/100
               else if u > 80 then 35/100 else 25/100)⌉).toNat)
    ∧ (SessionPruner.aggressivePrune now sessions u).length
      = (⌈(sessions.length : ℚ)
          * (if u > 95 then 70/100 else if u > 90 then 50/100
             else if u > 80 then 35/100 else 25/100)⌉).toNat
    ∧ ∀ t ∈ SessionPruner.aggressivePrune now sessions u, t ∈ sessions := by
  have hlen : (SessionPruner.sortByPruneScore now sessions).length = sessions.length :=
    length_sortByPruneScore _ _
  have hp1 : (if u > 95 then (70:ℚ)/100 else if u > 90 then 50/100
      else if u > 80 then 35/100 else 25/100) ≤ 1 := by
    split_ifs <;> norm_num
  have h1 : SessionPruner.aggressivePrune now sessions u
      = (SessionPruner.sortByPruneScore now sessions).take
          ((⌈(sessions.length : ℚ)
            * (if u > 95 then 70/100 else if u > 90 then 50/100
               else if u > 80 then 35/100 else 25/100)⌉).toNat) := by
    unfold SessionPruner.aggressivePrune
    dsimp only
    rw [hlen]
  refine ⟨h1, ?_, fun t ht => mem_aggressivePrune ht⟩
  rw [h1, List.length_take, hlen]
  exact inf_eq_left.mpr (ceil_mul_frac_toNat_le _ _ hp1)

/-- **C9** (confirmed).  Running `prune('conservative')` twice in immediate
succession (same clock instant, no new sessions, deletions effective) evicts
nothing on the second call: the survivors of the first call are exactly the
protected sessions and the sessions at or under the max age, and neither
kind is selected by the conservative strategy. -/
theorem conservative_prune_idempotent (cfg : SessionPruner.Config) (now : ℤ)
    (sessions : List SessionInfo) (u₁ u₂ : ℚ) :
    SessionPruner.selectPruneTargets cfg now
        (SessionPruner.pruneSurvivors cfg now sessions "conservative" u₁)
        "conservative" u₂ = [] := by
  unfold SessionPruner.selectPruneTargets
  dsimp only
  by_cases hz : ((SessionPruner.pruneSurvivors cfg now sessions "conservative" u₁).filter
      fun s => ! SessionPruner.isProtected cfg now s).length = 0
  · rw [if_pos hz]
  · rw [if_neg hz, if_pos rfl]
    unfold SessionPruner.conservativePrune
    rw [List.filter_eq_nil_iff]
    intro s hs
    have hs1 := List.mem_filter.1 hs
    have hnp : SessionPruner.isProtected cfg now s = false := by
      have := hs1.2
      simpa using this
    have hss := List.mem_filter.1 hs1.1
    have hnotin : s ∉ SessionPruner.selectPruneTargets cfg now sessions "conservative" u₁ := by
      have := hss.2
      simpa using this
    intro hold
    apply hnotin
    have hmem1 : s ∈ sessions.filter fun x => ! SessionPruner.isProtected cfg now x :=
      List.mem_filter.2 ⟨hss.1, by simp [hnp]⟩
    have hlen : ¬ ((sessions.filter fun x => ! SessionPruner.isProtected cfg now x).length = 0) := by
      intro h0
      rw [List.length_eq_zero] at h0
      rw [h0] at hmem1
      exact absurd hmem1 (List.not_mem_nil _)
    unfold SessionPruner.selectPruneTargets
    dsimp only
    rw [if_neg hlen, if_pos rfl]
    unfold SessionPruner.conservativePrune
    exact List.mem_filter.2 ⟨hmem1, hold⟩

theorem restoreCopy_extends (bundle : List (String × String)) :
    ∀ live, ∃ added,
      (SessionArchiver.restoreCopy bundle live).1 = live ++ added
      ∧ ∀ p ∈ added, p.1 ∉ live.map Prod.fst := by
  induction bundle with
  | nil =>
    intro live
    exact ⟨[], by simp [SessionArchiver.restoreCopy]⟩
  | cons f rest ih =>
    intro live
    by_cases hc : f.1 ∈ live.map Prod.fst
    · obtain ⟨added, h1, h2⟩ := ih live
      refine ⟨added, ?_, h2⟩
      rw [show SessionArchiver.restoreCopy (f :: rest) live
          = SessionArchiver.restoreCopy rest live
        from by simp [SessionArchiver.restoreCopy, hc]]
      exact h1
    · obtain ⟨added, h1, h2⟩ := ih (live ++ [f])
      refine ⟨f :: added, ?_, ?_⟩
      · have e : (SessionArchiver.restoreCopy (f :: rest) live).1
            = (SessionArchiver.restoreCopy rest (live ++ [f])).1 := by
          simp [SessionArchiver.restoreCopy, hc]
        rw [e, h1, List.append_assoc, List.singleton_append]
      · intro p hp
        rcases List.mem_cons.1 hp with rfl | hp'
        · exact hc
        · have h3 := h2 p hp'
          intro hmem
          exact h3 (by rw [List.map_append]; exact List.mem_append.2 (.inl hmem))

theorem restoreCopy_count (bundle : List (String × String)) :
    ∀ live, (bundle.map Prod.fst).Nodup →
      (SessionArchiver.restoreCopy bundle live).2
        = (bundle.filter fun f => decide (f.1 ∉ live.map Prod.fst)).length := by
  induction bundle with
  | nil =>
    intro live _
    simp [SessionArchiver.restoreCopy]
  | cons f rest ih =>
    intro live hnd
    simp only [List.map_cons] at hnd
    have hnotin : f.1 ∉ rest.map Prod.fst := (List.nodup_cons.1 hnd).1
    have hnd' : (rest.map Prod.fst).Nodup := (List.nodup_cons.1 hnd).2
    by_cases hc : f.1 ∈ live.map Prod.fst
    · have e : SessionArchiver.restoreCopy (f :: rest) live
          = SessionArchiver.restoreCopy rest live := by
        simp [SessionArchiver.restoreCopy, hc]
      rw [e, ih live hnd', List.filter_cons, if_neg (by simp [hc])]
    · have e : (SessionArchiver.restoreCopy (f :: rest) live).2
          = (SessionArchiver.restoreCopy rest (live ++ [f])).2 + 1 := by
        simp [SessionArchiver.restoreCopy, hc]
      have hcong : (rest.filter fun g => decide (g.1 ∉ (live ++ [f]).map Prod.fst))
          = (rest.filter fun g => decide (g.1 ∉ live.map Prod.fst)) := by
        apply List.filter_congr
        intro g hg
        have hne : g.1 ≠ f.1 := by
          intro he
          exact hnotin (he ▸ List.mem_map_of_mem Prod.fst hg)
        simp [List.map_append, hne]
      rw [e, ih (live ++ [f]) hnd', hcong, List.filter_cons, if_pos (by simp [hc])]
      simp

/-- **C5** (confirmed).  For every live session id that already exists in the
restore target, `restore()` leaves the existing live file unchanged (the
copy-back loop only appends files under fresh names), counts every
already-live bundle entry as skipped, and the returned report carries both
counts, which sum to the bundle size. -/
theorem restore_never_overwrites (live bundle : List (String × String)) (name : String)
    (hnd : (bundle.map Prod.fst).Nodup)
    (hlive : name ∈ live.map Prod.fst) :
    SessionArchiver.lookupFile name (SessionArchiver.restoreResult bundle live).1
      = SessionArchiver.lookupFile name live
    ∧ (SessionArchiver.restoreResult bundle live).2.skipped
      = (bundle.filter fun f => decide (f.1 ∈ live.map Prod.fst)).length
    ∧ (SessionArchiver.restoreResult bundle live).2.restored
        + (SessionArchiver.restoreResult bundle live).2.skipped
      = bundle.length := by
  have hcount := restoreCopy_count bundle live hnd
  have hsum := List.length_eq_length_filter_add
    (l := bundle) (fun f => decide (f.1 ∈ live.map Prod.fst))
  have hnotc : (bundle.filter fun f => !(decide (f.1 ∈ live.map Prod.fst)))
      = (bundle.filter fun f => decide (f.1 ∉ live.map Prod.fst)) := by
    apply List.filter_congr
    intro g _
    simp
  rw [hnotc] at hsum
  refine ⟨?_, ?_, ?_⟩
  · obtain ⟨added, h1, _⟩ := restoreCopy_extends bundle live
    show SessionArchiver.lookupFile name (SessionArchiver.restoreCopy bundle live).1 = _
    rw [h1]
    unfold SessionArchiver.lookupFile
    rw [List.find?_append]
    have hsome : (List.find? (fun f => decide (f.1 = name)) live).isSome := by
      rw [List.find?_isSome]
      obtain ⟨p, hp, he⟩ := List.mem_map.1 hlive
      exact ⟨p, hp, by simp [he]⟩
    obtain ⟨e, he⟩ := Option.isSome_iff_exists.1 hsome
    rw [he]
    rfl
  · show bundle.length - (SessionArchiver.restoreCopy bundle live).2 = _
    rw [hcount]
    omega
  · show (SessionArchiver.restoreCopy bundle live).2
      + (bundle.length - (SessionArchiver.restoreCopy bundle live).2) = bundle.length
    have hle : (SessionArchiver.restoreCopy bundle live).2 ≤ bundle.length := by
      rw [hcount]
      exact List.length_filter_le _ _
    omega

/-- Witness for **C5**: restoring a two-file bundle over a live directory
that already holds `s1` leaves the live `s1` unchanged, skips exactly that
one entry, and reports `restored + skipped = 2`. -/
theorem restore_never_overwrites_witness :
    (((([("s1", "archived"), ("s2", "fresh")] : List (String × String))).map Prod.fst).Nodup
    ∧ "s1" ∈ ([("s1", "live")] : List (String × String)).map Prod.fst)
    ∧ (SessionArchiver.lookupFile "s1"
          (SessionArchiver.restoreResult [("s1", "archived"), ("s2", "fresh")]
            [("s1", "live")]).1
        = SessionArchiver.lookupFile "s1" [("s1", "live")]
      ∧ (SessionArchiver.restoreResult [("s1", "archived"), ("s2", "fresh")]
            [("s1", "live")]).2.skipped
        = (([("s1", "archived"), ("s2", "fresh")] : List (String × String)).filter
            fun f => decide (f.1 ∈ ([("s1", "live")] : List (String × String)).map Prod.fst)).length
      ∧ (SessionArchiver.restoreResult [("s1", "archived"), ("s2", "fresh")]
            [("s1", "live")]).2.restored
          + (SessionArchiver.restoreResult [("s1", "archived"), ("s2", "fresh")]
              [("s1", "live")]).2.skipped
        = ([("s1", "archived"), ("s2", "fresh")] : List (String × String)).length) := by
  have hnd : ((([("s1", "archived"), ("s2", "fresh")] : List (String × String))).map Prod.fst).Nodup := by
    decide
  have hlive : "s1" ∈ ([("s1", "live")] : List (String × String)).map Prod.fst := by
    decide
  exact ⟨⟨hnd, hlive⟩, restore_never_overwrites _ _ _ hnd hlive⟩

/-- Witness for the amended **C3** theorem: at 85% utilization the four
concrete eligible sessions yield an eviction count equal to the 35% band
ceiling. -/
theorem aggressive_eviction_fraction_witness :
    (SessionPruner.aggressivePrune 864000000 aggressiveFourSessions 85).length
      = (⌈(aggressiveFourSessions.length : ℚ)
          * (if (85:ℚ) > 95 then 70/100 else if (85:ℚ) > 90 then 50/100
             else if (85:ℚ) > 80 then 35/100 else 25/100)⌉).toNat :=
  (aggressive_eviction_fraction 864000000 aggressiveFourSessions 85).2.1
